import Mathlib

/-!
Verification of the OF-DPA two-port switch provisioner
(`simplest_ofdpa_switch13.py`).

The development shallowly embeds the program: OpenFlow messages become an
inductive `Msg` type, the message-emitting methods (`add_flow`, `add_group`,
`del_flows`, `del_groups`) become pure functions returning a `Msg`, the
`switch_features_handler` body becomes the ordered list of messages it sends
(in the `Except` monad because the group-id helpers contain `assert`
statements), and the group-id helpers (`l2_if_group`,
`l2_unfiltered_if_group`, `_ofdpa_group_id`) become `Except`-valued functions
whose `assert` failures are modelled as a `RangeError`.  Machine integers are
modelled as `Nat`; no arithmetic in the source overflows (all ids fit in 32
bits, which is proved below rather than assumed).
-/

set_option autoImplicit false

namespace SimplestSwitch

/-! ### Pipeline constants (class attributes and protocol constants) -/

/-- Class attribute `ACL_TABLE = 60`. -/
def ACL_TABLE : Nat := 60

/-- Class attribute `VLAN_TABLE = 10`. -/
def VLAN_TABLE : Nat := 10

/-- Class attribute `TERMINATION_MAC = 20`. -/
def TERMINATION_MAC : Nat := 20

/-- OpenFlow 1.3 constant `OFPVID_PRESENT` (0x1000), used to build the
tagged-VLAN match value `n_vlan | OFPVID_PRESENT`. -/
def OFPVID_PRESENT : Nat := 0x1000

/-- OpenFlow 1.3 group type `OFPGT_INDIRECT`. -/
def OFPGT_INDIRECT : Nat := 2

/-- Spec name (§4.2) for the literal priority 0 used for the table-miss
entry. -/
def PRIORITY_TABLE_MISS : Nat := 0

/-- Spec name (§4.2) for the literal priority 3 used for the VLAN_TABLE
entries. -/
def PRIORITY_VLAN : Nat := 3

/-- Spec name (§4.2) for the literal priority 1000 used for the ACL bridging
entries. -/
def PRIORITY_BRIDGE : Nat := 1000

/-! ### Group-id codec -/

/-- Failure of an `assert` guarding a group-id field bound; the spec calls
this error `RangeError`. -/
inductive CodecError where
  | rangeError
deriving DecidableEq, Repr

/-- `_ofdpa_group_id(index, type)`: returns `index | (type << TYPE_OFFSET)`
after asserting `type <= MAX_TYPE` (12) and `index <= MAX_INDEX`
(0xFFFFFFF).  A failed assert is modelled as `RangeError`. -/
def ofdpa_group_id (index ty : Nat) : Except CodecError Nat :=
  if ty ≤ 12 then
    if index ≤ 0xFFFFFFF then
      Except.ok (index ||| (ty <<< 28))
    else
      Except.error CodecError.rangeError
  else
    Except.error CodecError.rangeError

/-- `l2_if_group(port, vlan_id)`: asserts `port <= MAX_PORT` (0xFFFF), then
returns `_ofdpa_group_id(port | vlan_id << 16, 0)`. -/
def l2_if_group (port vlan_id : Nat) : Except CodecError Nat :=
  if port ≤ 0xFFFF then
    ofdpa_group_id (port ||| (vlan_id <<< 16)) 0
  else
    Except.error CodecError.rangeError

/-- `l2_unfiltered_if_group(port)`: asserts `port <= MAX_PORT` (0xFFFF),
then returns `_ofdpa_group_id(port, 11)`. -/
def l2_unfiltered_if_group (port : Nat) : Except CodecError Nat :=
  if port ≤ 0xFFFF then
    ofdpa_group_id port 11
  else
    Except.error CodecError.rangeError

/-- Modelled from the spec (§4.1, GroupIDCodec): the source has no general
three-field `encode`; the spec defines
`encode(type, mid, port) = port | (mid << 16) | (type << 28)` failing with
`RangeError` if any operand exceeds its bound (`type ≤ 12`, `mid ≤ 0xFFF`,
`port ≤ 0xFFFF`). -/
def encode (ty mid port : Nat) : Except CodecError Nat :=
  if ty ≤ 12 then
    if mid ≤ 0xFFF then
      if port ≤ 0xFFFF then
        Except.ok (port ||| (mid <<< 16) ||| (ty <<< 28))
      else
        Except.error CodecError.rangeError
    else
      Except.error CodecError.rangeError
  else
    Except.error CodecError.rangeError

/-- Modelled from the spec (§4.1, GroupIDCodec): the source has no `decode`;
the spec defines it as pure bit-field extraction, total on all 32-bit
patterns: `type` from bits 28-31, `mid` from bits 16-27, `port` from bits
0-15. -/
def decode (id : Nat) : Nat × Nat × Nat :=
  ((id >>> 28) &&& 0xF, (id >>> 16) &&& 0xFFF, id &&& 0xFFFF)

/-! ### Messages -/

/-- OpenFlow actions appearing in the program (`OFPActionSetField`,
`OFPActionPushVlan`, `OFPActionPopVlan`, `OFPActionOutput`,
`OFPActionGroup`).  `pushVlan` is present in the vocabulary (the source
mentions it in a commented-out line) but is never emitted. -/
inductive Action where
  | setField (vlan_vid : Nat)
  | pushVlan (ethertype : Nat)
  | popVlan
  | output (port : Nat)
  | group (group_id : Nat)
deriving DecidableEq, Repr

/-- `OFPMatch`: only the two fields the program ever sets.  `none` means the
field is absent from the match (`OFPMatch()` with no arguments is
`⟨none, none⟩`). -/
structure OFPMatch where
  in_port : Option Nat
  vlan_vid : Option Nat
deriving DecidableEq, Repr

/-- Flow-mod instructions used by `add_flow`: an apply-actions instruction
and an optional goto-table instruction. -/
inductive Instruction where
  | applyActions (actions : List Action)
  | gotoTable (table_id : Nat)
deriving DecidableEq, Repr

/-- The payload of an `OFPFlowMod` add as built by `add_flow`. -/
structure FlowEntry where
  table_id : Nat
  priority : Nat
  mtch : OFPMatch
  instructions : List Instruction
deriving DecidableEq, Repr

/-- The payload of an `OFPGroupMod` add as built by `add_group`. -/
structure GroupEntry where
  group_id : Nat
  group_type : Nat
  buckets : List (List Action)
deriving DecidableEq, Repr

/-- A message the program sends to the switch: the two wipe messages built
by `del_flows` / `del_groups` (delete-all flow mod across all tables,
delete-all group mod), a flow add, or a group add. -/
inductive Msg where
  | flowDelAll
  | groupDelAll
  | flowAdd (entry : FlowEntry) (buffer_id : Option Nat)
  | groupAdd (entry : GroupEntry)
deriving DecidableEq, Repr

/-- Python truthiness of the `buffer_id` argument: `None` and `0` are falsy,
any other integer is truthy.  This is the test `if buffer_id:` performs in
`add_flow`. -/
def truthy : Option Nat → Bool
  | none => false
  | some b => b != 0

/-- `add_flow(datapath, priority, match, actions, buffer_id=None,
table_id=ACL_TABLE, goto=None)`: builds the instruction list (apply-actions,
plus a goto-table instruction when `goto` is not `None`) and sends an
`OFPFlowMod`; the flow mod carries `buffer_id` only when `if buffer_id:` is
truthy. -/
def add_flow (priority : Nat) (mtch : OFPMatch) (actions : List Action)
    (buffer_id : Option Nat := none) (table_id : Nat := ACL_TABLE)
    (goto : Option Nat := none) : Msg :=
  let inst := [Instruction.applyActions actions] ++
    (match goto with
     | some g => [Instruction.gotoTable g]
     | none => [])
  if truthy buffer_id then
    Msg.flowAdd ⟨table_id, priority, mtch, inst⟩ buffer_id
  else
    Msg.flowAdd ⟨table_id, priority, mtch, inst⟩ none

/-- `add_group(datapath, buckets, group_id, group_type)`: sends an
`OFPGroupMod(OFPFC_ADD, group_type, group_id, buckets)`. -/
def add_group (buckets : List (List Action)) (group_id : Nat)
    (group_type : Nat) : Msg :=
  Msg.groupAdd ⟨group_id, group_type, buckets⟩

/-- `del_flows(datapath)`: sends the delete-all flow mod
(`table_id=OFPTT_ALL`, `command=OFPFC_DELETE`, `out_port=OFPP_ANY`,
`out_group=OFPG_ANY`). -/
def del_flows : Msg := Msg.flowDelAll

/-- `del_groups(datapath)`: sends the delete-all group mod
(`OFPGC_DELETE`, group `OFPG_ALL`). -/
def del_groups : Msg := Msg.groupDelAll

/-- The hardcoded two-port topology `ports = [1, 2]`. -/
def ports : List Nat := [1, 2]

/-- The ordered list of messages the body of `switch_features_handler`
sends, in program order: wipe flows, wipe groups, table-miss entry, the two
VLAN_TABLE entries per port, one indirect group per port, then the two ACL
bridging entries.  The group-id computations live in the `Except` monad
because `l2_if_group` contains asserts (they all succeed for the hardcoded
topology). -/
def switch_features_handler : Except CodecError (List Msg) := do
  let n_vlan : Nat := 0x1
  let n_vlan_match : Nat := n_vlan ||| OFPVID_PRESENT
  let tableMiss := add_flow 0 ⟨none, none⟩ []
  let vlanFlows := (ports.map (fun port =>
    [ add_flow 3 ⟨some port, some n_vlan_match⟩ [] none VLAN_TABLE
        (some TERMINATION_MAC),
      add_flow 3 ⟨some port, some 0⟩ [Action.setField n_vlan] none VLAN_TABLE
        (some TERMINATION_MAC) ])).flatten
  let groupMsgs ← ports.mapM (fun port => do
    let group_id ← l2_if_group port n_vlan
    pure (add_group [[Action.popVlan, Action.output port]] group_id
      OFPGT_INDIRECT))
  let g2 ← l2_if_group 2 n_vlan
  let bridge1 := add_flow 1000 ⟨some 1, some n_vlan_match⟩ [Action.group g2]
  let g1 ← l2_if_group 1 n_vlan
  let bridge2 := add_flow 1000 ⟨some 2, some n_vlan_match⟩ [Action.group g1]
  pure ([del_flows, del_groups, tableMiss] ++ vlanFlows ++ groupMsgs ++
    [bridge1, bridge2])

/-- The concrete value of the message trace, spelled out.  The lemma
`switch_features_handler_eq` below certifies it against the embedding. -/
def provisionList : List Msg :=
  [ Msg.flowDelAll,
    Msg.groupDelAll,
    Msg.flowAdd ⟨60, 0, ⟨none, none⟩, [Instruction.applyActions []]⟩ none,
    Msg.flowAdd ⟨10, 3, ⟨some 1, some 0x1001⟩,
      [Instruction.applyActions [], Instruction.gotoTable 20]⟩ none,
    Msg.flowAdd ⟨10, 3, ⟨some 1, some 0⟩,
      [Instruction.applyActions [Action.setField 1],
       Instruction.gotoTable 20]⟩ none,
    Msg.flowAdd ⟨10, 3, ⟨some 2, some 0x1001⟩,
      [Instruction.applyActions [], Instruction.gotoTable 20]⟩ none,
    Msg.flowAdd ⟨10, 3, ⟨some 2, some 0⟩,
      [Instruction.applyActions [Action.setField 1],
       Instruction.gotoTable 20]⟩ none,
    Msg.groupAdd ⟨0x10001, 2, [[Action.popVlan, Action.output 1]]⟩,
    Msg.groupAdd ⟨0x10002, 2, [[Action.popVlan, Action.output 2]]⟩,
    Msg.flowAdd ⟨60, 1000, ⟨some 1, some 0x1001⟩,
      [Instruction.applyActions [Action.group 0x10002]]⟩ none,
    Msg.flowAdd ⟨60, 1000, ⟨some 2, some 0x1001⟩,
      [Instruction.applyActions [Action.group 0x10001]]⟩ none ]

theorem switch_features_handler_eq :
    switch_features_handler = Except.ok provisionList := rfl

/-! ### Switch state and message semantics -/

/-- The installed state of the switch: its flow entries and group entries,
in installation order. -/
structure SwitchState where
  flows : List FlowEntry
  groups : List GroupEntry
deriving DecidableEq, Repr

/-- Effect of one message on the switch: the delete-all flow mod clears
every flow table, the delete-all group mod clears all groups, and an add
appends the entry. -/
def applyMsg (s : SwitchState) : Msg → SwitchState
  | Msg.flowDelAll => { s with flows := [] }
  | Msg.groupDelAll => { s with groups := [] }
  | Msg.flowAdd e _ => { s with flows := s.flows ++ [e] }
  | Msg.groupAdd e => { s with groups := s.groups ++ [e] }

/-- Run a list of messages against a switch state, in order. -/
def runMsgs (s : SwitchState) (msgs : List Msg) : SwitchState :=
  msgs.foldl applyMsg s

/-- Send a list of messages through a transport that raises on any message
satisfying `fails`: returns the messages actually delivered before the first
failure, and whether a failure was raised (the raise aborts the rest of the
list, exactly as a Python exception aborts the rest of the `try` body). -/
def sendSeq (fails : Msg → Bool) : List Msg → List Msg × Bool
  | [] => ([], false)
  | m :: rest =>
    if fails m then
      ([], true)
    else
      let r := sendSeq fails rest
      (m :: r.1, r.2)

/-- Outcome of one invocation of `switch_features_handler` against a
transport that raises on messages satisfying `fails`: the messages actually
delivered, and whether the bare `except:` clause ran (it catches every
exception, prints the traceback with `traceback.print_exc()`, and returns
normally — the exception is never re-raised). -/
structure HandlerRun where
  applied : List Msg
  caught : Bool
deriving DecidableEq, Repr

/-- One full run of `switch_features_handler`: the body computes and sends
the provisioning messages inside a `try:` block; a transport exception skips
the remaining sends and lands in the bare `except:` clause. -/
def run_switch_features_handler (fails : Msg → Bool) : HandlerRun :=
  match switch_features_handler with
  | Except.ok msgs => ⟨(sendSeq fails msgs).1, (sendSeq fails msgs).2⟩
  | Except.error _ => ⟨[], true⟩

/-! ### Entry classifiers -/

/-- The table-miss message: `add_flow(datapath, 0, OFPMatch(), [])`. -/
def tableMissMsg : Msg := add_flow 0 ⟨none, none⟩ []

/-- A flow add at the table-miss priority 0. -/
def isTableMissEntry : Msg → Bool
  | Msg.flowAdd e _ => e.priority == PRIORITY_TABLE_MISS
  | _ => false

/-- A flow add into `VLAN_TABLE`. -/
def isVlanTableEntry : Msg → Bool
  | Msg.flowAdd e _ => e.table_id == VLAN_TABLE
  | _ => false

/-- A flow add into `VLAN_TABLE` matching on a given ingress port. -/
def isVlanTableEntryFor (p : Nat) : Msg → Bool
  | Msg.flowAdd e _ => e.table_id == VLAN_TABLE && e.mtch.in_port == some p
  | _ => false

/-- A bridging entry: a flow add into `ACL_TABLE` at priority 1000. -/
def isAclBridgeEntry : Msg → Bool
  | Msg.flowAdd e _ => e.table_id == ACL_TABLE && e.priority == PRIORITY_BRIDGE
  | _ => false

/-- A group-install message. -/
def isGroupAdd : Msg → Bool
  | Msg.groupAdd _ => true
  | _ => false

/-- An install message (flow add or group add), as opposed to a wipe. -/
def isInstall : Msg → Bool
  | Msg.flowAdd _ _ => true
  | Msg.groupAdd _ => true
  | _ => false

/-- Group ids referenced by the actions of a flow-add message. -/
def groupRefs : Msg → List Nat
  | Msg.flowAdd e _ =>
    e.instructions.foldr (fun i acc =>
      (match i with
       | Instruction.applyActions acts =>
         acts.filterMap (fun a =>
           match a with
           | Action.group g => some g
           | _ => none)
       | _ => []) ++ acc) []
  | _ => []

/-- Whether a message installs the group with the given id. -/
def installsGroup (g : Nat) : Msg → Bool
  | Msg.groupAdd e => e.group_id == g
  | _ => false

/-- The buffer id carried by a flow-add message (`none` for every other
message). -/
def msgBufferId : Msg → Option Nat
  | Msg.flowAdd _ b => b
  | _ => none

/-! ### Helper lemmas -/

/-- Delivered messages are exactly the longest failure-free initial segment
of the send sequence. -/
theorem sendSeq_fst (fails : Msg → Bool) (msgs : List Msg) :
    (sendSeq fails msgs).1 = msgs.takeWhile (fun m => !(fails m)) := by
  induction msgs with
  | nil => rfl
  | cons m rest ih =>
    by_cases h : fails m = true
    · simp [sendSeq, List.takeWhile, h]
    · simp only [Bool.not_eq_true] at h
      simp [sendSeq, List.takeWhile, h, ih]

/-- Disjoint bit fields: or-ing a value below `2 ^ k` with a `k`-shifted
value is plain addition. -/
theorem lor_shiftLeft_eq (a b k : Nat) (h : a < 2 ^ k) :
    a ||| (b <<< k) = 2 ^ k * b + a := by
  rw [Nat.shiftLeft_eq, Nat.mul_comm b (2 ^ k), Nat.or_comm]
  exact (Nat.mul_add_lt_is_or h b).symm

/-- For in-range fields, `encode` succeeds and its packed value is the plain
arithmetic sum of the shifted fields. -/
theorem encode_eq_ok (ty mid port : Nat)
    (ht : ty ≤ 12) (hm : mid ≤ 0xFFF) (hp : port ≤ 0xFFFF) :
    encode ty mid port = Except.ok (2 ^ 28 * ty + (2 ^ 16 * mid + port)) := by
  have h16 : port < 2 ^ 16 := by omega
  have e1 : port ||| (mid <<< 16) = 2 ^ 16 * mid + port :=
    lor_shiftLeft_eq _ _ _ h16
  have h28 : 2 ^ 16 * mid + port < 2 ^ 28 := by omega
  have e2 : port ||| (mid <<< 16) ||| (ty <<< 28) =
      2 ^ 28 * ty + (2 ^ 16 * mid + port) := by
    rw [e1]
    exact lor_shiftLeft_eq _ _ _ h28
  unfold encode
  rw [if_pos ht, if_pos hm, if_pos hp, e2]

/-- For an in-range port and VLAN, `l2_if_group` succeeds with the packed
value `port | vlan << 16` (type field 0). -/
theorem l2_if_group_eq_ok (port vlan_id : Nat)
    (hp : port ≤ 0xFFFF) (hv : vlan_id ≤ 0xFFF) :
    l2_if_group port vlan_id = Except.ok (2 ^ 16 * vlan_id + port) := by
  have h16 : port < 2 ^ 16 := by omega
  have e1 : port ||| (vlan_id <<< 16) = 2 ^ 16 * vlan_id + port :=
    lor_shiftLeft_eq _ _ _ h16
  have hidx : port ||| (vlan_id <<< 16) ≤ 0xFFFFFFF := by omega
  unfold l2_if_group ofdpa_group_id
  rw [if_pos hp, if_pos (by omega : (0:Nat) ≤ 12), if_pos hidx, e1]
  have : (0:Nat) <<< 28 = 0 := Nat.zero_shiftLeft 28
  rw [this, Nat.or_zero]

/-- For an in-range port, `l2_unfiltered_if_group` succeeds with the packed
value `port | 11 << 28`. -/
theorem l2_unfiltered_if_group_eq_ok (port : Nat) (hp : port ≤ 0xFFFF) :
    l2_unfiltered_if_group port = Except.ok (2 ^ 28 * 11 + port) := by
  have h28 : port < 2 ^ 28 := by omega
  have e1 : port ||| ((11:Nat) <<< 28) = 2 ^ 28 * 11 + port :=
    lor_shiftLeft_eq _ _ _ h28
  unfold l2_unfiltered_if_group ofdpa_group_id
  rw [if_pos hp, if_pos (by omega : (11:Nat) ≤ 12),
    if_pos (by omega : port ≤ 0xFFFFFFF), e1]

/-! ### Claims C3, C4, C5, C10: the group-id codec -/

/-- C3: for every valid field triple (`type ≤ 12`, `mid ≤ 0xFFF`,
`port ≤ 0xFFFF`), decoding the encoded 32-bit group id yields the original
triple: `decode (encode ty mid port) = (ty, mid, port)`. -/
theorem claim_C3_roundtrip (ty mid port : Nat)
    (ht : ty ≤ 12) (hm : mid ≤ 0xFFF) (hp : port ≤ 0xFFFF) :
    Except.map decode (encode ty mid port) = Except.ok (ty, mid, port) := by
  rw [encode_eq_ok ty mid port ht hm hp]
  show Except.ok (decode (2 ^ 28 * ty + (2 ^ 16 * mid + port))) = _
  unfold decode
  have hF : (0xF : Nat) = 2 ^ 4 - 1 := by norm_num
  have hFFF : (0xFFF : Nat) = 2 ^ 12 - 1 := by norm_num
  have hFFFF : (0xFFFF : Nat) = 2 ^ 16 - 1 := by norm_num
  rw [hF, hFFF, hFFFF, Nat.and_pow_two_sub_one_eq_mod,
    Nat.and_pow_two_sub_one_eq_mod, Nat.and_pow_two_sub_one_eq_mod,
    Nat.shiftRight_eq_div_pow, Nat.shiftRight_eq_div_pow]
  simp only [Except.ok.injEq, Prod.mk.injEq]
  refine ⟨by omega, by omega, by omega⟩

/-- C3 witness: the round trip evaluated at the maximal valid triple. -/
theorem claim_C3_roundtrip_witness :
    Except.map decode (encode 12 0xFFF 0xFFFF) = Except.ok (12, 0xFFF, 0xFFFF) :=
  claim_C3_roundtrip 12 0xFFF 0xFFFF (by decide) (by decide) (by decide)

/-- C4: encoding with any field out of range fails with `RangeError` and
never silently truncates or wraps; in the source, `_ofdpa_group_id` rejects
`type > 12` and `l2_if_group` rejects `port > 0xFFFF` directly and
`mid > 0xFFF` through the `index ≤ 0xFFFFFFF` assert; in particular
`encode 13 0 0`, `encode 0 0x1000 0` and `encode 0 0 0x10000` each fail. -/
theorem claim_C4_range_enforcement :
    (∀ ty mid port : Nat, ¬(ty ≤ 12 ∧ mid ≤ 0xFFF ∧ port ≤ 0xFFFF) →
      encode ty mid port = Except.error CodecError.rangeError) ∧
    (∀ index ty : Nat, 12 < ty →
      ofdpa_group_id index ty = Except.error CodecError.rangeError) ∧
    (∀ port vlan_id : Nat, ¬(port ≤ 0xFFFF ∧ vlan_id ≤ 0xFFF) →
      l2_if_group port vlan_id = Except.error CodecError.rangeError) ∧
    (∀ port : Nat, 0xFFFF < port →
      l2_unfiltered_if_group port = Except.error CodecError.rangeError) ∧
    encode 13 0 0 = Except.error CodecError.rangeError ∧
    encode 0 0x1000 0 = Except.error CodecError.rangeError ∧
    encode 0 0 0x10000 = Except.error CodecError.rangeError := by
  refine ⟨?_, ?_, ?_, ?_, rfl, rfl, rfl⟩
  · intro ty mid port h
    by_cases h1 : ty ≤ 12
    · by_cases h2 : mid ≤ 0xFFF
      · by_cases h3 : port ≤ 0xFFFF
        · exact absurd ⟨h1, h2, h3⟩ h
        · unfold encode
          rw [if_pos h1, if_pos h2, if_neg h3]
      · unfold encode
        rw [if_pos h1, if_neg h2]
    · unfold encode
      rw [if_neg h1]
  · intro index ty h
    unfold ofdpa_group_id
    rw [if_neg (by omega)]
  · intro port vlan_id h
    by_cases hp : port ≤ 0xFFFF
    · have hv : 0xFFF < vlan_id := by
        rcases Nat.lt_or_ge 0xFFF vlan_id with hlt | hge
        · exact hlt
        · exact absurd ⟨hp, hge⟩ h
      have h16 : port < 2 ^ 16 := by omega
      have e1 : port ||| (vlan_id <<< 16) = 2 ^ 16 * vlan_id + port :=
        lor_shiftLeft_eq _ _ _ h16
      unfold l2_if_group ofdpa_group_id
      rw [if_pos hp, if_pos (by omega : (0:Nat) ≤ 12), if_neg (by omega)]
    · unfold l2_if_group
      rw [if_neg hp]
  · intro port hp
    unfold l2_unfiltered_if_group
    rw [if_neg (by omega)]

/-- C4 witness: the type-field bound violation from the claim. -/
theorem claim_C4_range_enforcement_witness :
    encode 13 0 0 = Except.error CodecError.rangeError :=
  claim_C4_range_enforcement.1 13 0 0 (by decide)

/-- C5: the two named constructors equal the stated encodings: for every
valid port and VLAN, `l2_if_group port vlan = encode 0 vlan port` and
`l2_unfiltered_if_group port = encode 11 0 port`. -/
theorem claim_C5_constructors (port vlan : Nat)
    (hp : port ≤ 0xFFFF) (hv : vlan ≤ 0xFFF) :
    l2_if_group port vlan = encode 0 vlan port ∧
    l2_unfiltered_if_group port = encode 11 0 port := by
  constructor
  · rw [l2_if_group_eq_ok port vlan hp hv,
      encode_eq_ok 0 vlan port (by omega) hv hp]
    norm_num
  · rw [l2_unfiltered_if_group_eq_ok port hp,
      encode_eq_ok 11 0 port (by omega) (by omega) hp]
    norm_num

/-- C5 witness: the constructor identities at the concrete arguments the
provisioner uses. -/
theorem claim_C5_constructors_witness :
    l2_if_group 2 1 = encode 0 1 2 ∧ l2_unfiltered_if_group 2 = encode 11 0 2 :=
  claim_C5_constructors 2 1 (by decide) (by decide)

/-- C10: the two group-id families are disjoint (type fields 0 versus 11)
and each fits in 32 bits. -/
theorem claim_C10_disjoint (p q vlan : Nat)
    (hp : p ≤ 0xFFFF) (hq : q ≤ 0xFFFF) (hv : vlan ≤ 0xFFF) :
    l2_if_group p vlan ≠ l2_unfiltered_if_group q ∧
    (∀ g : Nat, l2_if_group p vlan = Except.ok g → g < 2 ^ 32) ∧
    (∀ g : Nat, l2_unfiltered_if_group q = Except.ok g → g < 2 ^ 32) := by
  rw [l2_if_group_eq_ok p vlan hp hv, l2_unfiltered_if_group_eq_ok q hq]
  refine ⟨?_, ?_, ?_⟩
  · intro h
    have : 2 ^ 16 * vlan + p = 2 ^ 28 * 11 + q := by
      injection h
    omega
  · intro g hg
    have : 2 ^ 16 * vlan + p = g := by injection hg
    omega
  · intro g hg
    have : 2 ^ 28 * 11 + q = g := by injection hg
    omega

/-- C10 witness: disjointness and the 32-bit bound at the ports and VLAN the
provisioner uses. -/
theorem claim_C10_disjoint_witness :
    l2_if_group 1 1 ≠ l2_unfiltered_if_group 1 ∧
    (∀ g : Nat, l2_if_group 1 1 = Except.ok g → g < 2 ^ 32) ∧
    (∀ g : Nat, l2_unfiltered_if_group 1 = Except.ok g → g < 2 ^ 32) :=
  claim_C10_disjoint 1 1 1 (by decide) (by decide) (by decide)

/-! ### Claims C1, C2, C6: the concrete provisioning plan and its order -/

/-- C1: for ports `{1, 2}` and native VLAN 1, one provisioning cycle emits
exactly 1 table-miss entry (priority 0, empty match, empty actions, ACL
default table), exactly 4 VLAN_TABLE entries (per port: tagged native VLAN
and untagged), exactly 2 ACL bridging entries at priority 1000 (in_port 1
via the group for port 2 and conversely), and exactly 2 INDIRECT groups
with ids `encode 0 1 1` and `encode 0 1 2`, each a single bucket
`[popVlan, output port]`. -/
theorem claim_C1_concrete_plan (l : List Msg)
    (h : switch_features_handler = Except.ok l) :
    l.filter isTableMissEntry =
      [Msg.flowAdd ⟨ACL_TABLE, 0, ⟨none, none⟩,
        [Instruction.applyActions []]⟩ none] ∧
    l.filter isVlanTableEntry =
      [ Msg.flowAdd ⟨VLAN_TABLE, 3, ⟨some 1, some (0x1 ||| OFPVID_PRESENT)⟩,
          [Instruction.applyActions [], Instruction.gotoTable TERMINATION_MAC]⟩
          none,
        Msg.flowAdd ⟨VLAN_TABLE, 3, ⟨some 1, some 0⟩,
          [Instruction.applyActions [Action.setField 0x1],
           Instruction.gotoTable TERMINATION_MAC]⟩ none,
        Msg.flowAdd ⟨VLAN_TABLE, 3, ⟨some 2, some (0x1 ||| OFPVID_PRESENT)⟩,
          [Instruction.applyActions [], Instruction.gotoTable TERMINATION_MAC]⟩
          none,
        Msg.flowAdd ⟨VLAN_TABLE, 3, ⟨some 2, some 0⟩,
          [Instruction.applyActions [Action.setField 0x1],
           Instruction.gotoTable TERMINATION_MAC]⟩ none ] ∧
    l.filter isAclBridgeEntry =
      [ Msg.flowAdd ⟨ACL_TABLE, 1000, ⟨some 1, some (0x1 ||| OFPVID_PRESENT)⟩,
          [Instruction.applyActions [Action.group 0x10002]]⟩ none,
        Msg.flowAdd ⟨ACL_TABLE, 1000, ⟨some 2, some (0x1 ||| OFPVID_PRESENT)⟩,
          [Instruction.applyActions [Action.group 0x10001]]⟩ none ] ∧
    l.filter isGroupAdd =
      [ Msg.groupAdd ⟨0x10001, OFPGT_INDIRECT,
          [[Action.popVlan, Action.output 1]]⟩,
        Msg.groupAdd ⟨0x10002, OFPGT_INDIRECT,
          [[Action.popVlan, Action.output 2]]⟩ ] ∧
    encode 0 1 1 = Except.ok 0x10001 ∧
    encode 0 1 2 = Except.ok 0x10002 := by
  have hl : provisionList = l := by
    have h0 := switch_features_handler_eq.symm.trans h
    injection h0
  subst hl
  exact ⟨rfl, rfl, rfl, rfl, rfl, rfl⟩

/-- C1 witness: the plan properties evaluated on the concrete trace. -/
theorem claim_C1_concrete_plan_witness :
    provisionList.filter isTableMissEntry =
      [Msg.flowAdd ⟨ACL_TABLE, 0, ⟨none, none⟩,
        [Instruction.applyActions []]⟩ none] ∧
    provisionList.filter isVlanTableEntry =
      [ Msg.flowAdd ⟨VLAN_TABLE, 3, ⟨some 1, some (0x1 ||| OFPVID_PRESENT)⟩,
          [Instruction.applyActions [], Instruction.gotoTable TERMINATION_MAC]⟩
          none,
        Msg.flowAdd ⟨VLAN_TABLE, 3, ⟨some 1, some 0⟩,
          [Instruction.applyActions [Action.setField 0x1],
           Instruction.gotoTable TERMINATION_MAC]⟩ none,
        Msg.flowAdd ⟨VLAN_TABLE, 3, ⟨some 2, some (0x1 ||| OFPVID_PRESENT)⟩,
          [Instruction.applyActions [], Instruction.gotoTable TERMINATION_MAC]⟩
          none,
        Msg.flowAdd ⟨VLAN_TABLE, 3, ⟨some 2, some 0⟩,
          [Instruction.applyActions [Action.setField 0x1],
           Instruction.gotoTable TERMINATION_MAC]⟩ none ] ∧
    provisionList.filter isAclBridgeEntry =
      [ Msg.flowAdd ⟨ACL_TABLE, 1000, ⟨some 1, some (0x1 ||| OFPVID_PRESENT)⟩,
          [Instruction.applyActions [Action.group 0x10002]]⟩ none,
        Msg.flowAdd ⟨ACL_TABLE, 1000, ⟨some 2, some (0x1 ||| OFPVID_PRESENT)⟩,
          [Instruction.applyActions [Action.group 0x10001]]⟩ none ] ∧
    provisionList.filter isGroupAdd =
      [ Msg.groupAdd ⟨0x10001, OFPGT_INDIRECT,
          [[Action.popVlan, Action.output 1]]⟩,
        Msg.groupAdd ⟨0x10002, OFPGT_INDIRECT,
          [[Action.popVlan, Action.output 2]]⟩ ] ∧
    encode 0 1 1 = Except.ok 0x10001 ∧
    encode 0 1 2 = Except.ok 0x10002 :=
  claim_C1_concrete_plan provisionList rfl

/-- C2: in the trace of install calls produced by one provisioning cycle,
every flow entry that references a group id is preceded by a group install
for that id, and every install call is preceded by both wipe calls. -/
theorem claim_C2_ordering (l : List Msg)
    (h : switch_features_handler = Except.ok l) :
    (∀ i : Fin l.length, ∀ g ∈ groupRefs (l.get i),
      ∃ j : Fin l.length, j.val < i.val ∧ installsGroup g (l.get j) = true) ∧
    (∀ i : Fin l.length, isInstall (l.get i) = true →
      (∃ j : Fin l.length, j.val < i.val ∧ l.get j = Msg.flowDelAll) ∧
      (∃ j : Fin l.length, j.val < i.val ∧ l.get j = Msg.groupDelAll)) := by
  have hl : provisionList = l := by
    have h0 := switch_features_handler_eq.symm.trans h
    injection h0
  subst hl
  decide

/-- C2 witness: the ordering properties evaluated on the concrete trace. -/
theorem claim_C2_ordering_witness :
    (∀ i : Fin provisionList.length, ∀ g ∈ groupRefs (provisionList.get i),
      ∃ j : Fin provisionList.length, j.val < i.val ∧
        installsGroup g (provisionList.get j) = true) ∧
    (∀ i : Fin provisionList.length, isInstall (provisionList.get i) = true →
      (∃ j : Fin provisionList.length, j.val < i.val ∧
        provisionList.get j = Msg.flowDelAll) ∧
      (∃ j : Fin provisionList.length, j.val < i.val ∧
        provisionList.get j = Msg.groupDelAll)) :=
  claim_C2_ordering provisionList rfl

/-- C6: for each port, the two VLAN_TABLE entries are both at the VLAN
priority with goto `TERMINATION_MAC`; the untagged entry carries exactly one
action (a set-field assigning the native VLAN) and no push-802.1Q action;
the tagged-native entry carries an empty action list. -/
theorem claim_C6_vlan_entries (l : List Msg)
    (h : switch_features_handler = Except.ok l) (p : Nat) (hp : p ∈ ports) :
    l.filter (isVlanTableEntryFor p) =
      [ Msg.flowAdd ⟨VLAN_TABLE, PRIORITY_VLAN,
          ⟨some p, some (0x1 ||| OFPVID_PRESENT)⟩,
          [Instruction.applyActions [], Instruction.gotoTable TERMINATION_MAC]⟩
          none,
        Msg.flowAdd ⟨VLAN_TABLE, PRIORITY_VLAN, ⟨some p, some 0⟩,
          [Instruction.applyActions [Action.setField 0x1],
           Instruction.gotoTable TERMINATION_MAC]⟩ none ] ∧
    (∀ ethertype : Nat,
      Action.pushVlan ethertype ∉ [Action.setField 0x1]) := by
  have hl : provisionList = l := by
    have h0 := switch_features_handler_eq.symm.trans h
    injection h0
  subst hl
  have hp' : p = 1 ∨ p = 2 := by simpa [ports] using hp
  constructor
  · rcases hp' with rfl | rfl <;> rfl
  · intro ethertype hmem
    simp at hmem

/-- C6 witness: the VLAN_TABLE entry pair for port 1. -/
theorem claim_C6_vlan_entries_witness :
    provisionList.filter (isVlanTableEntryFor 1) =
      [ Msg.flowAdd ⟨VLAN_TABLE, PRIORITY_VLAN,
          ⟨some 1, some (0x1 ||| OFPVID_PRESENT)⟩,
          [Instruction.applyActions [], Instruction.gotoTable TERMINATION_MAC]⟩
          none,
        Msg.flowAdd ⟨VLAN_TABLE, PRIORITY_VLAN, ⟨some 1, some 0⟩,
          [Instruction.applyActions [Action.setField 0x1],
           Instruction.gotoTable TERMINATION_MAC]⟩ none ] ∧
    (∀ ethertype : Nat,
      Action.pushVlan ethertype ∉ [Action.setField 0x1]) :=
  claim_C6_vlan_entries provisionList rfl 1 (by decide)

/-! ### Claims C7, C8, C9: failure behavior, idempotence, buffer ids -/

/-- C7 (amended): if the table-miss flow install fails, no group entries and
no bridging flow entries are applied later in that cycle, and a transport
failure in any phase aborts all the remaining sends (the delivered messages
are exactly the longest failure-free initial segment).  The handler's bare
`except:` then catches the exception (`caught = true`) and only prints the
traceback; it does not propagate the error. -/
theorem claim_C7_abort (l : List Msg)
    (h : switch_features_handler = Except.ok l) (fails : Msg → Bool)
    (hf : fails tableMissMsg = true) :
    (∀ m ∈ (sendSeq fails l).1,
      isGroupAdd m = false ∧ isAclBridgeEntry m = false) ∧
    (sendSeq fails l).2 = true ∧
    (run_switch_features_handler fails).caught = true ∧
    (run_switch_features_handler fails).applied =
      l.takeWhile (fun m => !(fails m)) ∧
    (∀ g : Msg → Bool, (sendSeq g l).1 = l.takeWhile (fun m => !(g m))) := by
  have hl : provisionList = l := by
    have h0 := switch_features_handler_eq.symm.trans h
    injection h0
  subst hl
  have hf' : fails (Msg.flowAdd ⟨60, 0, ⟨none, none⟩,
      [Instruction.applyActions []]⟩ none) = true := hf
  have happl : ∀ g : Msg → Bool,
      (sendSeq g provisionList).1 =
        provisionList.takeWhile (fun m => !(g m)) :=
    fun g => sendSeq_fst g _
  have hsnd : (sendSeq fails provisionList).2 = true := by
    cases h0 : fails Msg.flowDelAll <;> cases h1 : fails Msg.groupDelAll <;>
      simp [sendSeq, provisionList, h0, h1, hf']
  have hrun : run_switch_features_handler fails =
      ⟨(sendSeq fails provisionList).1, (sendSeq fails provisionList).2⟩ := by
    simp [run_switch_features_handler, switch_features_handler_eq]
  refine ⟨?_, hsnd, by rw [hrun]; exact hsnd, by rw [hrun]; exact happl fails,
    happl⟩
  intro m hm
  rw [happl fails] at hm
  cases h0 : fails Msg.flowDelAll <;> cases h1 : fails Msg.groupDelAll
  all_goals simp [provisionList, List.takeWhile, h0, h1, hf'] at hm
  all_goals try rcases hm with rfl | rfl
  all_goals exact ⟨rfl, rfl⟩

/-- C7 witness: the abort property at the transport that fails exactly on
the table-miss message. -/
theorem claim_C7_abort_witness :
    (∀ m ∈ (sendSeq (fun m => decide (m = tableMissMsg)) provisionList).1,
      isGroupAdd m = false ∧ isAclBridgeEntry m = false) ∧
    (sendSeq (fun m => decide (m = tableMissMsg)) provisionList).2 = true :=
  ⟨(claim_C7_abort provisionList rfl _ (by decide)).1,
   (claim_C7_abort provisionList rfl _ (by decide)).2.1⟩

/-- C7 counterexample to the claim as stated: when the table-miss install
fails, the error is NOT surfaced to the handler's caller — the bare
`except: traceback.print_exc()` catches the exception (`caught = true`) and
the handler returns normally after delivering only the two wipes, i.e. the
error is swallowed after being printed, contradicting "surfaced ... rather
than being swallowed". -/
theorem claim_C7_swallow_counterexample :
    (run_switch_features_handler
      (fun m => decide (m = tableMissMsg))).caught = true ∧
    (run_switch_features_handler
      (fun m => decide (m = tableMissMsg))).applied =
      [Msg.flowDelAll, Msg.groupDelAll] := by
  constructor <;> rfl

/-- C8: provisioning is idempotent: from any prior switch state, running the
provisioning cycle twice leaves exactly the final flow and group entries of
running it once, because the cycle starts by wiping all flows and groups. -/
theorem claim_C8_idempotent (l : List Msg)
    (h : switch_features_handler = Except.ok l) (s : SwitchState) :
    runMsgs (runMsgs s l) l = runMsgs s l := by
  have hl : provisionList = l := by
    have h0 := switch_features_handler_eq.symm.trans h
    injection h0
  subst hl
  rfl

/-- C8 witness: idempotence from the empty switch state. -/
theorem claim_C8_idempotent_witness :
    runMsgs (runMsgs ⟨[], []⟩ provisionList) provisionList =
      runMsgs ⟨[], []⟩ provisionList :=
  claim_C8_idempotent provisionList rfl ⟨[], []⟩

/-- C9: `add_flow` treats `buffer_id = 0` exactly like an absent
`buffer_id`: the emitted flow mod is identical and carries no buffer id
(the branch tests Python truthiness, not `is not None`); only a nonzero
buffer id is forwarded into the message. -/
theorem claim_C9_buffer_id (priority : Nat) (m : OFPMatch)
    (actions : List Action) (table_id : Nat) (goto : Option Nat) :
    add_flow priority m actions (some 0) table_id goto =
      add_flow priority m actions none table_id goto ∧
    msgBufferId (add_flow priority m actions none table_id goto) = none ∧
    msgBufferId (add_flow priority m actions (some 0) table_id goto) = none ∧
    (∀ b : Nat, b ≠ 0 →
      msgBufferId (add_flow priority m actions (some b) table_id goto) =
        some b) := by
  refine ⟨rfl, rfl, rfl, ?_⟩
  intro b hb
  have ht : truthy (some b) = true := by simp [truthy, hb]
  simp [add_flow, ht, msgBufferId]

/-- C9 witness: buffer id 0 behaves as absent, buffer id 7 is forwarded. -/
theorem claim_C9_buffer_id_witness :
    add_flow 0 ⟨none, none⟩ [] (some 0) ACL_TABLE none =
      add_flow 0 ⟨none, none⟩ [] none ACL_TABLE none ∧
    msgBufferId (add_flow 0 ⟨none, none⟩ [] (some 7) ACL_TABLE none) =
      some 7 :=
  ⟨(claim_C9_buffer_id 0 ⟨none, none⟩ [] ACL_TABLE none).1,
   (claim_C9_buffer_id 0 ⟨none, none⟩ [] ACL_TABLE none).2.2.2 7
     (by decide)⟩

end SimplestSwitch
